import Mathlib

/-!
Verification of the Skill-Tracker daily pipeline core.

Shallow embedding of the Python backend (`backend/app`) into Lean 4:
numeric values are modelled as `ℚ`, numpy arrays and pandas frames as
lists, dictionaries as association lists, dates as a `Date` record, and
fallible stages as `Except String`.  Each definition mirrors one Python
function; the theorems below settle the specification claims about them.
-/

namespace SkillTracker

/-! ## Feature engineering (`app/ml/feature_engineering.py`) -/

/-- Embeds `FeatureEngineer._calculate_growth_rate`.  The numpy filter
`values[values > 0]` keeps the strictly positive entries; `values[0]` and
`values[-1]` are the head and last element of the filtered array. -/
def calculateGrowthRate (values : List ℚ) : ℚ :=
  if values.length < 2 then 0
  else
    match values.filter (fun v => decide (0 < v)) with
    | [] => 0
    | [_] => 0
    | a :: b :: rest =>
      let last := (b :: rest).getLast (List.cons_ne_nil b rest)
      if a = 0 then (if 0 < last then 100 else 0)
      else ((last - a) / a) * 100

/-- Embeds `FeatureEngineer._calculate_decay_rate`: decay is the negated
growth rate. -/
def calculateDecayRate (values : List ℚ) : ℚ :=
  -(calculateGrowthRate values)

/-- Every element of the positive filter is strictly positive. -/
theorem filter_pos_mem {values : List ℚ} {x : ℚ}
    (hx : x ∈ values.filter (fun v => decide (0 < v))) : 0 < x := by
  have := List.of_mem_filter hx
  exact of_decide_eq_true this

/-- On the main branch the growth rate is strictly above `-100`. -/
theorem growthRate_main_branch_bound {a last : ℚ} (ha : 0 < a) (hlast : 0 < last) :
    -100 < ((last - a) / a) * 100 := by
  have hdiv : 0 < last / a := div_pos hlast ha
  have hsub : (last - a) / a = last / a - 1 := by
    rw [sub_div, div_self (ne_of_gt ha)]
  rw [hsub]
  nlinarith [hdiv]

/-- The growth rate is either exactly `0` or strictly greater than `-100`. -/
theorem calculateGrowthRate_lower_bound (values : List ℚ) :
    calculateGrowthRate values = 0 ∨ -100 < calculateGrowthRate values := by
  unfold calculateGrowthRate
  by_cases hlen : values.length < 2
  · left; simp [hlen]
  · simp only [hlen, if_false]
    rcases hfil : values.filter (fun v => decide (0 < v)) with _ | ⟨a, _ | ⟨b, rest⟩⟩
    · left; rfl
    · left; rfl
    · have ha : 0 < a := filter_pos_mem (hfil ▸ List.mem_cons_self a _)
      have hmem : (b :: rest).getLast (List.cons_ne_nil b rest) ∈
          values.filter (fun v => decide (0 < v)) := by
        rw [hfil]
        exact List.mem_cons_of_mem a (List.getLast_mem _)
      have hlast := filter_pos_mem hmem
      right
      simp only [if_neg (ne_of_gt ha)]
      exact growthRate_main_branch_bound ha hlast

/-- Claim C1, as stated, fails on the code: for the series `[0, 5]` the
filter `values[values > 0]` removes the zero, a single positive observation
remains, and the function returns `0`, not `100`. -/
theorem C1_counterexample_zero_five :
    calculateGrowthRate [0, 5] = 0 ∧ (0 : ℚ) ≠ 100 := by
  constructor
  · decide
  · norm_num

/-- Claim C1 (amended): for a two-element strictly increasing positive series
`[a, b]` with `a > 0` the growth rate equals `((b - a) / a) * 100`; for
`[0, 5]` the result is `0` (the zero is filtered out, leaving fewer than two
positive observations, so the `first == 0` special case is unreachable); for
`[5, 0]` and for any series with fewer than two positive observations the
result is `0`. -/
theorem C1_growthRate_cases :
    (∀ a b : ℚ, 0 < a → a < b →
      calculateGrowthRate [a, b] = ((b - a) / a) * 100) ∧
    calculateGrowthRate [0, 5] = 0 ∧
    calculateGrowthRate [5, 0] = 0 ∧
    (∀ values : List ℚ,
      (values.filter (fun v => decide (0 < v))).length < 2 →
      calculateGrowthRate values = 0) := by
  refine ⟨?_, by decide, by decide, ?_⟩
  · intro a b ha hab
    have hb : 0 < b := ha.trans hab
    unfold calculateGrowthRate
    simp [List.filter_cons, decide_eq_true ha, decide_eq_true hb,
      List.getLast, ha.ne']
  · intro values h
    unfold calculateGrowthRate
    by_cases hlen : values.length < 2
    · simp [hlen]
    · simp only [hlen, if_false]
      rcases hfil : values.filter (fun v => decide (0 < v)) with _ | ⟨a, _ | ⟨b, rest⟩⟩
      · rfl
      · rfl
      · rw [hfil] at h
        simp at h
        omega

/-- Witness for C1: concrete instances discharging the hypotheses. -/
theorem C1_growthRate_cases_witness :
    calculateGrowthRate [(1 : ℚ), 3] = ((3 - 1) / 1) * 100 ∧
    calculateGrowthRate [(7 : ℚ)] = 0 :=
  ⟨C1_growthRate_cases.1 1 3 (by norm_num) (by norm_num),
   C1_growthRate_cases.2.2.2 [7] (by decide)⟩

/-- Claim C10: the growth-rate helper returns either exactly `0` or a value
strictly greater than `-100`; consequently every decay rate is strictly less
than `100`, and the no-signal base risk `min 0.6 (|growth|/100)` for negative
growth is strictly below `1`. -/
theorem C10_growthRate_bounds :
    (∀ values : List ℚ,
      calculateGrowthRate values = 0 ∨ -100 < calculateGrowthRate values) ∧
    (∀ values : List ℚ, calculateDecayRate values < 100) ∧
    (∀ values : List ℚ, calculateGrowthRate values < 0 →
      min (3/5 : ℚ) (|calculateGrowthRate values| / 100) < 1) := by
  refine ⟨calculateGrowthRate_lower_bound, ?_, ?_⟩
  · intro values
    unfold calculateDecayRate
    rcases calculateGrowthRate_lower_bound values with h | h
    · rw [h]; norm_num
    · linarith
  · intro values hneg
    rcases calculateGrowthRate_lower_bound values with h | h
    · rw [h] at hneg; exact absurd hneg (by norm_num)
    · have habs : |calculateGrowthRate values| < 100 := by
        rw [abs_of_neg hneg]; linarith
      have : |calculateGrowthRate values| / 100 < 1 := by linarith
      exact lt_of_le_of_lt (min_le_right _ _) this

/-- Witness for C10: the series `[5, 4]` has negative growth rate `-20`. -/
theorem C10_growthRate_bounds_witness :
    min (3/5 : ℚ) (|calculateGrowthRate [5, 4]| / 100) < 1 :=
  C10_growthRate_bounds.2.2 [5, 4]
    (by norm_num [calculateGrowthRate, List.filter_cons, List.getLast])

/-! ## Feature rows and risk classification (`app/ml/risk_classifier.py`) -/

/-- One row of the features frame produced by
`FeatureEngineer._calculate_skill_features`. -/
structure FeatureRow where
  skill : String
  job_posting_growth : ℚ
  github_velocity : ℚ
  community_decay : ℚ
  research_trend : ℚ
  recent_job_postings : ℚ
  recent_github_stars : ℚ
  job_volatility : ℚ
  days_observed : ℚ
  total_observations : ℚ
  current_demand : ℚ
deriving DecidableEq

/-- Python's `round(x, 3)`, modelled as rounding `x * 1000` to the nearest
integer.  (Python rounds half-thousandth ties to even; no property below
depends on a tie.) -/
def roundTo3 (x : ℚ) : ℚ :=
  (round (x * 1000) : ℚ) / 1000

/-- The list of fired signal increments of
`RiskClassifier._calculate_risk_scores`, in source order. -/
def riskFactors (row : FeatureRow) : List ℚ :=
  (if row.job_posting_growth < -20 then [2/5]
   else if row.job_posting_growth < -10 then [1/5]
   else if row.job_posting_growth < 0 then [1/10] else []) ++
  (if 30 < row.community_decay then [3/10]
   else if 15 < row.community_decay then [3/20] else []) ++
  (if row.recent_job_postings = 0 then [1/5]
   else if row.recent_job_postings < 5 then [1/10] else []) ++
  (if 50 < row.job_volatility then [1/10] else [])

/-- The per-row body of `RiskClassifier._calculate_risk_scores`.  The
`np.random.uniform(-0.05, 0.05)` draw of the source is made explicit as the
`noise` argument. -/
def calculateRiskScore (row : FeatureRow) (noise : ℚ) : ℚ :=
  let capped := min 1 (riskFactors row).sum
  let base :=
    if capped = 0 then
      if row.job_posting_growth < 0 then
        min (3/5) (|row.job_posting_growth| / 100)
      else 1/10
    else capped
  roundTo3 (max 0 (min 1 (base + noise)))

/-- Embeds `RiskClassifier.predict_risk`: one `(skill, risk_score)` pair per
feature row, with the per-row random draw supplied by `noise`. -/
def predictRisk (rows : List FeatureRow) (noise : FeatureRow → ℚ) :
    List (String × ℚ) :=
  rows.map (fun r => (r.skill, calculateRiskScore r (noise r)))

/-- A feature row on which no risk signal fires: zero growth and decay,
healthy recent postings, zero volatility. -/
def stableRow : FeatureRow :=
  { skill := "python", job_posting_growth := 0, github_velocity := 0,
    community_decay := 0, research_trend := 0, recent_job_postings := 10,
    recent_github_stars := 0, job_volatility := 0, days_observed := 1,
    total_observations := 1, current_demand := 10 }

/-- Claim C2 fails on the code: the score depends on the random draw added
before rounding, so two evaluations of the same feature row can differ.
Both draws below lie in the `[-0.05, 0.05]` range of `np.random.uniform`;
the deterministic rule value for this row is the `0.1` baseline. -/
theorem C2_riskScore_noise_dependent :
    calculateRiskScore stableRow (1/20) = 3/20 ∧
    calculateRiskScore stableRow (-(1/20)) = 1/20 ∧
    calculateRiskScore stableRow (1/20) ≠ calculateRiskScore stableRow (-(1/20)) ∧
    -(1/20 : ℚ) ≥ -(1/20) ∧ (1/20 : ℚ) ≤ 1/20 := by
  refine ⟨?_, ?_, ?_, le_refl _, le_refl _⟩ <;>
    norm_num [calculateRiskScore, riskFactors, stableRow, roundTo3, round_eq]

/-- `roundTo3` maps `[0, 1]` into `[0, 1]`. -/
theorem roundTo3_bounds {x : ℚ} (h0 : 0 ≤ x) (h1 : x ≤ 1) :
    0 ≤ roundTo3 x ∧ roundTo3 x ≤ 1 := by
  unfold roundTo3
  have hlo : (0 : ℤ) ≤ round (x * 1000) := by
    rw [round_eq]
    have hfl : (0 : ℤ) = ⌊(1/2 : ℚ)⌋ := by norm_num
    rw [hfl]
    exact Int.floor_mono (by linarith)
  have hhi : round (x * 1000) ≤ 1000 := by
    rw [round_eq]
    have hfl : (1000 : ℤ) = ⌊(2001/2 : ℚ)⌋ := by norm_num
    rw [hfl]
    exact Int.floor_mono (by linarith)
  constructor
  · exact div_nonneg (by exact_mod_cast hlo) (by norm_num)
  · rw [div_le_one (by norm_num)]
    exact_mod_cast hhi

/-- The clamp-then-round tail of the score computation keeps every score in
`[0, 1]`, whatever the base value and the random draw. -/
theorem calculateRiskScore_bounds (row : FeatureRow) (noise : ℚ) :
    0 ≤ calculateRiskScore row noise ∧ calculateRiskScore row noise ≤ 1 := by
  unfold calculateRiskScore
  apply roundTo3_bounds
  · exact le_max_left 0 _
  · exact max_le (by norm_num) (min_le_left 1 _)

/-- Claim C4: every risk score returned by `predict_risk` lies in `[0, 1]`,
for every feature row and every random draw. -/
theorem C4_riskScore_unit_interval :
    (∀ (row : FeatureRow) (noise : ℚ),
      0 ≤ calculateRiskScore row noise ∧ calculateRiskScore row noise ≤ 1) ∧
    (∀ (rows : List FeatureRow) (noise : FeatureRow → ℚ),
      ∀ p ∈ predictRisk rows noise, 0 ≤ p.2 ∧ p.2 ≤ 1) := by
  refine ⟨calculateRiskScore_bounds, ?_⟩
  intro rows noise p hp
  rcases List.mem_map.mp hp with ⟨r, _, rfl⟩
  exact calculateRiskScore_bounds r (noise r)

/-- Witness for C4: the all-stable row with a zero draw scores inside
`[0, 1]`. -/
theorem C4_riskScore_unit_interval_witness :
    0 ≤ (("python", calculateRiskScore stableRow 0) : String × ℚ).2 ∧
    (("python", calculateRiskScore stableRow 0) : String × ℚ).2 ≤ 1 :=
  C4_riskScore_unit_interval.2 [stableRow] (fun _ => 0)
    ("python", calculateRiskScore stableRow 0)
    (by simp [predictRisk, stableRow])

/-! ## Forecasting (`app/ml/forecaster.py`) -/

/-- Embeds `DemandForecaster._simple_forecast`.  Note the hard-coded
`days_projection = 90` in the source body. -/
def simpleForecast (row : FeatureRow) : ℚ × String :=
  let growth_rate := row.job_posting_growth
  let days_projection : ℚ := 90
  let forecast_demand :=
    row.current_demand * (1 + (growth_rate / 100) * (days_projection / 365))
  let trend :=
    if 20 < growth_rate then "increasing"
    else if 5 < growth_rate then "increasing"
    else if growth_rate < -10 then "decreasing"
    else if growth_rate < 0 then "decreasing"
    else "stable"
  (max 0 forecast_demand, trend)

/-- Embeds `DemandForecaster.forecast` with the default `"simple"` model
type: the `horizonDays` argument (default 90 in the source signature) is
accepted but, as in the source, `_simple_forecast` never reads it. -/
def forecast (rows : List FeatureRow) (horizonDays : ℚ) :
    List (String × ℚ × String) :=
  rows.map (fun r => (r.skill, simpleForecast r))

/-- A feature row with demand 100 growing at 100%. -/
def growthRow : FeatureRow :=
  { skill := "react", job_posting_growth := 100, github_velocity := 0,
    community_decay := 0, research_trend := 0, recent_job_postings := 100,
    recent_github_stars := 0, job_volatility := 0, days_observed := 30,
    total_observations := 30, current_demand := 100 }

/-- Claim C3 fails on the code: `_simple_forecast` hard-codes a 90-day
projection, so with `horizon_days = 365` the forecast is
`100 * (1 + (100/100) * (90/365)) = 9100/73 ≈ 124.66`, not the
`max(0, current_demand * (1 + (growth/100) * (horizon_days/365))) = 200`
the claim requires; indeed the forecast is independent of `horizonDays`. -/
theorem C3_forecast_ignores_horizon :
    forecast [growthRow] 365 = [("react", (9100/73 : ℚ), "increasing")] ∧
    (9100/73 : ℚ) ≠ max 0 (100 * (1 + (100/100) * ((365 : ℚ)/365))) ∧
    ∀ (rows : List FeatureRow) (h1 h2 : ℚ), forecast rows h1 = forecast rows h2 := by
  refine ⟨?_, by norm_num, fun _ _ _ => rfl⟩
  norm_num [forecast, simpleForecast, growthRow]

/-! ## Risk categorization (`app/pipeline/daily_pipeline.py`, `app/config.py`) -/

/-- `Settings.RISK_THRESHOLD_HIGH` from `app/config.py`. -/
def RISK_THRESHOLD_HIGH : ℚ := 7/10

/-- `Settings.RISK_THRESHOLD_LOW` from `app/config.py`. -/
def RISK_THRESHOLD_LOW : ℚ := 3/10

/-- Embeds `DailyPipeline._categorize_risk`; a `NaN`/missing score is
modelled as `none`. -/
def categorizeRisk (score : Option ℚ) : String :=
  match score with
  | none => "unknown"
  | some s =>
    if RISK_THRESHOLD_HIGH ≤ s then "high"
    else if s ≤ RISK_THRESHOLD_LOW then "low"
    else "medium"

/-- Claim C8: scores at or above 0.7 are "high", at or below 0.3 are "low",
strictly between the thresholds "medium", and missing/NaN scores are
"unknown". -/
theorem C8_risk_categories :
    (∀ s : ℚ, 7/10 ≤ s → categorizeRisk (some s) = "high") ∧
    (∀ s : ℚ, s ≤ 3/10 → categorizeRisk (some s) = "low") ∧
    (∀ s : ℚ, 3/10 < s → s < 7/10 → categorizeRisk (some s) = "medium") ∧
    categorizeRisk none = "unknown" := by
  refine ⟨?_, ?_, ?_, rfl⟩
  · intro s h
    simp [categorizeRisk, RISK_THRESHOLD_HIGH, h]
  · intro s h
    have h7 : ¬ (7/10 : ℚ) ≤ s := not_le.mpr (by linarith)
    simp [categorizeRisk, RISK_THRESHOLD_HIGH, RISK_THRESHOLD_LOW, h7, h]
  · intro s h1 h2
    have h7 : ¬ (7/10 : ℚ) ≤ s := not_le.mpr h2
    have h3 : ¬ s ≤ (3/10 : ℚ) := not_le.mpr h1
    simp [categorizeRisk, RISK_THRESHOLD_HIGH, RISK_THRESHOLD_LOW, h7, h3]

/-- Witness for C8 at scores 0.8, 0.2 and 0.5. -/
theorem C8_risk_categories_witness :
    categorizeRisk (some (4/5)) = "high" ∧
    categorizeRisk (some (1/5)) = "low" ∧
    categorizeRisk (some (1/2)) = "medium" :=
  ⟨C8_risk_categories.1 (4/5) (by norm_num),
   C8_risk_categories.2.1 (1/5) (by norm_num),
   C8_risk_categories.2.2.1 (1/2) (by norm_num) (by norm_num)⟩

/-! ## Pipeline trigger endpoint (`app/api/pipeline.py`) -/

/-- The module-level `pipeline_status` record of `app/api/pipeline.py`. -/
structure PipelineStatusRec where
  status : String
  started_at : Option ℤ
  completed_at : Option ℤ
  records_processed : ℕ
  errors : List String
deriving DecidableEq

/-- Outcome of the `POST /run` handler: a 409 conflict or an accepted
response body. -/
inductive TriggerResponse where
  | conflict (statusCode : ℕ) (detail : String)
  | accepted (resp : PipelineStatusRec)
deriving DecidableEq

/-- Embeds `trigger_pipeline`.  Returns the HTTP response, the global
`pipeline_status` as the handler leaves it, and whether a background run was
enqueued.  The handler never mutates the global record itself; the accepted
branch only schedules `run_pipeline_background`. -/
def triggerPipeline (st : PipelineStatusRec) (now : ℤ) :
    TriggerResponse × PipelineStatusRec × Bool :=
  if st.status = "running" then
    (.conflict 409 "Pipeline is already running", st, false)
  else
    (.accepted { status := "running", started_at := some now,
                 completed_at := none, records_processed := 0, errors := [] },
     st, true)

/-- Claim C9: triggering while the recorded status is `"running"` yields the
409 conflict, leaves the in-flight run's state untouched, and enqueues no
new run. -/
theorem C9_trigger_while_running_rejected (st : PipelineStatusRec) (now : ℤ)
    (h : st.status = "running") :
    triggerPipeline st now =
      (.conflict 409 "Pipeline is already running", st, false) := by
  simp [triggerPipeline, h]

/-- A concrete in-flight status record. -/
def runningStatus : PipelineStatusRec :=
  { status := "running", started_at := some 0, completed_at := none,
    records_processed := 0, errors := [] }

/-- Witness for C9 on a concrete running state. -/
theorem C9_trigger_while_running_rejected_witness :
    triggerPipeline runningStatus 5 =
      (.conflict 409 "Pipeline is already running", runningStatus, false) :=
  C9_trigger_while_running_rejected runningStatus 5 rfl

/-! ## Historical store update (`app/pipeline/daily_pipeline.py`) -/

/-- A calendar day, the `date` cell of a historical row. -/
structure Date where
  year : ℕ
  month : ℕ
  day : ℕ
deriving DecidableEq

/-- One row of the `historical_skills.csv` frame. -/
structure HistRow where
  skill : String
  date : Date
  job_postings : ℚ
  github_stars : ℚ
  community_mentions : ℚ
  research_citations : ℚ
deriving DecidableEq

/-- The row `_update_historical_data` builds for one `(skill, count)` pair:
dated with the as-of day, job postings set to the count, the remaining
metrics zero. -/
def mkNewRow (skill : String) (count : ℕ) (today : Date) : HistRow :=
  { skill := skill, date := today, job_postings := (count : ℚ),
    github_stars := 0, community_mentions := 0, research_citations := 0 }

/-- Embeds `DailyPipeline._update_historical_data`: build one new row per
skill of the normalized-count mapping and concatenate it after the existing
frame (the `pd.Timestamp.now().normalize()` day is the `today` argument). -/
def updateHistoricalData (hist : List HistRow)
    (newSkills : List (String × ℕ)) (today : Date) : List HistRow :=
  let newRows := newSkills.map (fun p => mkNewRow p.1 p.2 today)
  if newRows.isEmpty then hist else hist ++ newRows

/-- Claim C6: updating is a pure append — the output is the input series
followed by exactly one new row per `(skill, count)` pair, each dated with
the as-of day and carrying the skill's count; every input row survives
unchanged and no row is merged. -/
theorem C6_update_pure_append (hist : List HistRow)
    (newSkills : List (String × ℕ)) (today : Date) :
    updateHistoricalData hist newSkills today =
      hist ++ newSkills.map (fun p => mkNewRow p.1 p.2 today) ∧
    (∀ r ∈ hist, r ∈ updateHistoricalData hist newSkills today) ∧
    (updateHistoricalData hist newSkills today).length =
      hist.length + newSkills.length ∧
    (updateHistoricalData hist newSkills today).drop hist.length =
      newSkills.map (fun p => mkNewRow p.1 p.2 today) ∧
    ∀ p ∈ newSkills,
      (mkNewRow p.1 p.2 today).date = today ∧
      (mkNewRow p.1 p.2 today).job_postings = (p.2 : ℚ) ∧
      mkNewRow p.1 p.2 today ∈ updateHistoricalData hist newSkills today := by
  have heq : updateHistoricalData hist newSkills today =
      hist ++ newSkills.map (fun p => mkNewRow p.1 p.2 today) := by
    unfold updateHistoricalData
    by_cases h : (newSkills.map (fun p => mkNewRow p.1 p.2 today)).isEmpty
    · simp_all [List.isEmpty_iff]
    · simp [h]
  refine ⟨heq, ?_, ?_, ?_, ?_⟩
  · intro r hr
    rw [heq]
    exact List.mem_append_left _ hr
  · rw [heq]
    simp
  · rw [heq]
    simp
  · intro p hp
    refine ⟨rfl, rfl, ?_⟩
    rw [heq]
    exact List.mem_append_right _ (List.mem_map_of_mem _ hp)

/-- Witness for C6 on a one-row series and a one-skill count mapping. -/
theorem C6_update_pure_append_witness :
    mkNewRow "python" 3 ⟨2024, 1, 15⟩ ∈
      updateHistoricalData [mkNewRow "java" 2 ⟨2024, 1, 14⟩]
        [("python", 3)] ⟨2024, 1, 15⟩ :=
  ((C6_update_pure_append [mkNewRow "java" 2 ⟨2024, 1, 14⟩]
    [("python", 3)] ⟨2024, 1, 15⟩).2.2.2.2 ("python", 3)
    (List.mem_singleton.mpr rfl)).2.2

/-! ## Orchestrator (`DailyPipeline.run`) -/

/-- The stage functions `DailyPipeline.run` calls, in source order, each
modelled as a fallible computation (`Except String`) over abstract
intermediate data; an `error` is a raised Python exception carrying
`str(e)`. -/
structure PipelineEnv (Raw Extracted Norm Hist Feat Fore Risk Comb : Type) where
  fetchAllSources : Except String Raw
  saveRawSnapshot : Raw → Except String String
  extractSkills : Raw → Except String Extracted
  extractRoles : Raw → Except String Extracted
  normalizeSkills : Extracted → Except String Norm
  loadHistoricalData : Except String Hist
  updateHistorical : Hist → Norm → Except String Hist
  saveHistoricalData : Hist → Except String Unit
  createFeatures : Hist → Except String Feat
  featuresEmpty : Feat → Bool
  skillsNonempty : Norm → Bool
  createBasicFeatures : Norm → Raw → Except String Feat
  runForecast : Feat → Except String Fore
  runPredictRisk : Feat → Except String Risk
  combineResults : Feat → Fore → Risk → Except String Comb
  saveProcessedOutput : Comb → Except String String
  rawCount : Raw → ℕ
  skillCount : Norm → ℕ

/-- The `try` body of `DailyPipeline.run`: steps 1–9 in source order, each
step consuming only earlier products; the first error aborts the rest. -/
def runChain {Raw Extracted Norm Hist Feat Fore Risk Comb : Type}
    (env : PipelineEnv Raw Extracted Norm Hist Feat Fore Risk Comb) :
    Except String (String × ℕ × ℕ × String) := do
  let raw ← env.fetchAllSources
  let snapshotPath ← env.saveRawSnapshot raw
  let extractedSkills ← env.extractSkills raw
  let _extractedRoles ← env.extractRoles raw
  let normalized ← env.normalizeSkills extractedSkills
  let historical ← env.loadHistoricalData
  let updated ← env.updateHistorical historical normalized
  let _ ← env.saveHistoricalData updated
  let features ← env.createFeatures updated
  let features ←
    if env.featuresEmpty features && env.skillsNonempty normalized then
      env.createBasicFeatures normalized raw
    else pure features
  let forecasts ← env.runForecast features
  let risks ← env.runPredictRisk features
  let results ← env.combineResults features forecasts risks
  let outputPath ← env.saveProcessedOutput results
  pure (snapshotPath, env.rawCount raw, env.skillCount normalized, outputPath)

/-- The run-result dictionary of `DailyPipeline.run`; the failure branch
carries no counts or paths. -/
structure RunResult where
  status : String
  records_processed : Option ℕ
  skills_extracted : Option ℕ
  snapshot_path : Option String
  output_path : Option String
  errors : List String
deriving DecidableEq

/-- Embeds `DailyPipeline.run`: the `try`/`except` wrapper around the staged
body, converting success into a `"completed"` result and any raised
exception into a `"failed"` result with the message as the single error. -/
def runPipeline {Raw Extracted Norm Hist Feat Fore Risk Comb : Type}
    (env : PipelineEnv Raw Extracted Norm Hist Feat Fore Risk Comb) :
    RunResult :=
  match runChain env with
  | .ok (snapshotPath, rawN, skillN, outputPath) =>
    { status := "completed", records_processed := some rawN,
      skills_extracted := some skillN, snapshot_path := some snapshotPath,
      output_path := some outputPath, errors := [] }
  | .error e =>
    { status := "failed", records_processed := none,
      skills_extracted := none, snapshot_path := none,
      output_path := none, errors := [e] }

/-- Claim C5: `run` never propagates a stage exception — a failing chain
yields a well-formed `"failed"` result whose `errors` list is exactly the
exception message, a completing chain yields `"completed"` with no errors,
and every run result is one of those two shapes. -/
theorem C5_run_never_raises {Raw Extracted Norm Hist Feat Fore Risk Comb : Type}
    (env : PipelineEnv Raw Extracted Norm Hist Feat Fore Risk Comb) :
    (∀ e, runChain env = .error e →
      (runPipeline env).status = "failed" ∧ (runPipeline env).errors = [e]) ∧
    (∀ v, runChain env = .ok v →
      (runPipeline env).status = "completed" ∧ (runPipeline env).errors = []) ∧
    (((runPipeline env).status = "completed" ∧ (runPipeline env).errors = []) ∨
     ((runPipeline env).status = "failed" ∧
       ∃ e, (runPipeline env).errors = [e])) := by
  rcases h : runChain env with e | ⟨s, r, k, o⟩ <;>
    simp [runPipeline, h]

/-- A stage environment in which every stage succeeds. -/
def envAllOk : PipelineEnv Unit Unit Unit Unit Unit Unit Unit Unit :=
  { fetchAllSources := .ok (),
    saveRawSnapshot := fun _ => .ok "data/raw/raw_snapshot_20240115.json",
    extractSkills := fun _ => .ok (), extractRoles := fun _ => .ok (),
    normalizeSkills := fun _ => .ok (), loadHistoricalData := .ok (),
    updateHistorical := fun _ _ => .ok (),
    saveHistoricalData := fun _ => .ok (),
    createFeatures := fun _ => .ok (), featuresEmpty := fun _ => false,
    skillsNonempty := fun _ => true,
    createBasicFeatures := fun _ _ => .ok (),
    runForecast := fun _ => .ok (), runPredictRisk := fun _ => .ok (),
    combineResults := fun _ _ _ => .ok (),
    saveProcessedOutput := fun _ => .ok "data/processed/processed_skills_20240115.csv",
    rawCount := fun _ => 3, skillCount := fun _ => 2 }

/-- The same environment except that the risk-classification stage raises. -/
def envRiskRaises : PipelineEnv Unit Unit Unit Unit Unit Unit Unit Unit :=
  { envAllOk with runPredictRisk := fun _ => .error "risk model crashed" }

/-- Witness for C5: the all-success environment completes with no errors;
an exception in the risk stage yields a failed result carrying exactly that
message. -/
theorem C5_run_never_raises_witness :
    ((runPipeline envAllOk).status = "completed" ∧
      (runPipeline envAllOk).errors = []) ∧
    ((runPipeline envRiskRaises).status = "failed" ∧
      (runPipeline envRiskRaises).errors = ["risk model crashed"]) :=
  ⟨(C5_run_never_raises envAllOk).2.1
      ("data/raw/raw_snapshot_20240115.json", 3, 2,
        "data/processed/processed_skills_20240115.csv") rfl,
   (C5_run_never_raises envRiskRaises).1 "risk model crashed" rfl⟩

/-! ## Historical store persistence (`_save_historical_data`,
`_load_historical_data`) -/

/-- The decimal digit characters used by `strftime` output. -/
def digitChar (n : ℕ) : Char :=
  if n = 0 then '0'
  else if n = 1 then '1'
  else if n = 2 then '2'
  else if n = 3 then '3'
  else if n = 4 then '4'
  else if n = 5 then '5'
  else if n = 6 then '6'
  else if n = 7 then '7'
  else if n = 8 then '8'
  else '9'

/-- Reads one decimal digit, `none` on any other character. -/
def digitVal? (c : Char) : Option ℕ :=
  if c = '0' then some 0
  else if c = '1' then some 1
  else if c = '2' then some 2
  else if c = '3' then some 3
  else if c = '4' then some 4
  else if c = '5' then some 5
  else if c = '6' then some 6
  else if c = '7' then some 7
  else if c = '8' then some 8
  else if c = '9' then some 9
  else none

/-- `strftime('%Y-%m-%d')` on a day-granularity timestamp: four year digits,
two month digits and two day digits, zero-padded, dash-separated. -/
def formatDate (dt : Date) : String :=
  String.mk [digitChar (dt.year / 1000 % 10), digitChar (dt.year / 100 % 10),
    digitChar (dt.year / 10 % 10), digitChar (dt.year % 10), '-',
    digitChar (dt.month / 10 % 10), digitChar (dt.month % 10), '-',
    digitChar (dt.day / 10 % 10), digitChar (dt.day % 10)]

/-- `pd.to_datetime(..., errors='coerce')` on one CSV cell: accepts the
`YYYY-MM-DD` shape with an in-range month and day, and coerces anything
else to `NaT` (`none`). -/
def parseDate (s : String) : Option Date :=
  match s.toList with
  | [y1, y2, y3, y4, c1, m1, m2, c2, d1, d2] =>
    match digitVal? y1, digitVal? y2, digitVal? y3, digitVal? y4,
        digitVal? m1, digitVal? m2, digitVal? d1, digitVal? d2 with
    | some a1, some a2, some a3, some a4, some b1, some b2, some e1, some e2 =>
      if c1 = '-' ∧ c2 = '-' then
        let y := ((a1 * 10 + a2) * 10 + a3) * 10 + a4
        let m := b1 * 10 + b2
        let d := e1 * 10 + e2
        if 1 ≤ m ∧ m ≤ 12 ∧ 1 ≤ d ∧ d ≤ 31 then some ⟨y, m, d⟩ else none
      else none
    | _, _, _, _, _, _, _, _ => none
  | _ => none

/-- A day-granularity date the four-digit format can represent. -/
def ValidDate (dt : Date) : Prop :=
  dt.year ≤ 9999 ∧ 1 ≤ dt.month ∧ dt.month ≤ 12 ∧ 1 ≤ dt.day ∧ dt.day ≤ 31

instance (dt : Date) : Decidable (ValidDate dt) :=
  decidable_of_iff
    (dt.year ≤ 9999 ∧ 1 ≤ dt.month ∧ dt.month ≤ 12 ∧ 1 ≤ dt.day ∧ dt.day ≤ 31)
    Iff.rfl

/-- One row of the `historical_skills.csv` file as stored on disk: the date
cell is a string. -/
structure CsvRow where
  skill : String
  date : String
  job_postings : ℚ
  github_stars : ℚ
  community_mentions : ℚ
  research_citations : ℚ
deriving DecidableEq

/-- Embeds `DailyPipeline._save_historical_data`: each in-memory row is
written with its date formatted as `YYYY-MM-DD`. -/
def saveHistoricalData (rows : List HistRow) : List CsvRow :=
  rows.map (fun r =>
    { skill := r.skill, date := formatDate r.date,
      job_postings := r.job_postings, github_stars := r.github_stars,
      community_mentions := r.community_mentions,
      research_citations := r.research_citations })

/-- Embeds `DailyPipeline._load_historical_data` on an existing file: dates
are coerced and rows whose date fails to parse are dropped. -/
def loadHistoricalData (file : List CsvRow) : List HistRow :=
  file.filterMap (fun c => (parseDate c.date).map (fun dt =>
    { skill := c.skill, date := dt,
      job_postings := c.job_postings, github_stars := c.github_stars,
      community_mentions := c.community_mentions,
      research_citations := c.research_citations }))

theorem digitVal?_digitChar {n : ℕ} (h : n < 10) :
    digitVal? (digitChar n) = some n := by
  interval_cases n <;> decide

theorem digitVal?_le_nine {c : Char} {v : ℕ} (h : digitVal? c = some v) :
    v ≤ 9 := by
  unfold digitVal? at h
  split_ifs at h <;> cases h <;> omega

theorem toList_mk (l : List Char) : (String.mk l).toList = l := rfl

/-- Formatting a valid date and parsing it back is the identity. -/
theorem parseDate_formatDate (dt : Date) (h : ValidDate dt) :
    parseDate (formatDate dt) = some dt := by
  obtain ⟨y, m, d⟩ := dt
  obtain ⟨hy, hm1, hm2, hd1, hd2⟩ := h
  simp only at hy hm1 hm2 hd1 hd2
  unfold formatDate parseDate
  rw [toList_mk]
  have h10 : ∀ n : ℕ, n % 10 < 10 := fun n => Nat.mod_lt _ (by norm_num)
  simp only [digitVal?_digitChar (h10 _)]
  have hyy : ((y / 1000 % 10 * 10 + y / 100 % 10) * 10 + y / 10 % 10) * 10 + y % 10 = y := by
    omega
  have hmm : m / 10 % 10 * 10 + m % 10 = m := by omega
  have hdd : d / 10 % 10 * 10 + d % 10 = d := by omega
  simp [hyy, hmm, hdd, hm1, hm2, hd1, hd2]

/-- Only valid dates parse. -/
theorem parseDate_valid {s : String} {dt : Date} (h : parseDate s = some dt) :
    ValidDate dt := by
  unfold parseDate at h
  split at h
  · split at h
    · rename_i a1 a2 a3 a4 b1 b2 e1 e2 h1 h2 h3 h4 h5 h6 h7 h8
      split at h
      · dsimp only at h
        split at h
        · rename_i hdash hrange
          cases h
          refine ⟨?_, hrange.1, hrange.2.1, hrange.2.2.1, hrange.2.2.2⟩
          have := digitVal?_le_nine h1
          have := digitVal?_le_nine h2
          have := digitVal?_le_nine h3
          have := digitVal?_le_nine h4
          simp only
          omega
        · exact absurd h (by simp)
      · exact absurd h (by simp)
    · exact absurd h (by simp)
  · exact absurd h (by simp)

/-- Saving a series of valid-dated rows and loading the file back restores
the series exactly. -/
theorem load_save (rows : List HistRow) (h : ∀ r ∈ rows, ValidDate r.date) :
    loadHistoricalData (saveHistoricalData rows) = rows := by
  induction rows with
  | nil => rfl
  | cons r rs ih =>
    have hr := h r (List.mem_cons_self r rs)
    have hrs : ∀ x ∈ rs, ValidDate x.date := fun x hx => h x (List.mem_cons_of_mem r hx)
    unfold saveHistoricalData loadHistoricalData at ih ⊢
    simp only [List.map_cons, List.filterMap_cons, parseDate_formatDate _ hr]
    rw [ih hrs]
    rfl

/-- Every row a load produces carries a valid date. -/
theorem load_valid (file : List CsvRow) :
    ∀ r ∈ loadHistoricalData file, ValidDate r.date := by
  intro r hr
  unfold loadHistoricalData at hr
  rcases List.mem_filterMap.mp hr with ⟨c, _, heq⟩
  rcases Option.map_eq_some'.mp heq with ⟨dt, hparse, hgdt⟩
  have hdate : r.date = dt := by rw [← hgdt]
  rw [hdate]
  exact parseDate_valid hparse

/-- Claim C7: for a well-formed series, saving then reloading restores the
rows exactly (hence the same set of rows); `save(load(·))` reaches a fixed
point after one application; and a row with an unparseable date is dropped
on load, the rest of the file still loading. -/
theorem C7_save_load_roundtrip :
    (∀ rows : List HistRow, (∀ r ∈ rows, ValidDate r.date) →
      loadHistoricalData (saveHistoricalData rows) = rows) ∧
    (∀ file : List CsvRow,
      saveHistoricalData (loadHistoricalData
        (saveHistoricalData (loadHistoricalData file))) =
        saveHistoricalData (loadHistoricalData file)) ∧
    (∀ (file : List CsvRow) (c : CsvRow), parseDate c.date = none →
      loadHistoricalData (c :: file) = loadHistoricalData file) := by
  refine ⟨load_save, ?_, ?_⟩
  · intro file
    congr 1
    exact load_save _ (load_valid file)
  · intro file c hc
    simp [loadHistoricalData, List.filterMap_cons, hc]

/-- A concrete two-row series with valid day-granularity dates. -/
def sampleRows : List HistRow :=
  [⟨"python", ⟨2024, 1, 15⟩, 5, 0, 0, 0⟩, ⟨"react", ⟨2023, 12, 31⟩, 2, 1, 0, 0⟩]

/-- Witness for C7 on the concrete series. -/
theorem C7_save_load_roundtrip_witness :
    loadHistoricalData (saveHistoricalData sampleRows) = sampleRows :=
  C7_save_load_roundtrip.1 sampleRows (by decide)
